import Mathlib

/-!
Shallow embedding of the Sidekick execution engine (src/sidekick.py).

The program drives a LangGraph state machine with nodes `worker`, `tools`
and `evaluator` over a checkpointed `State`.  Language-model calls and tool
executions are external collaborators; here they appear as explicit oracle
parameters (the message returned by the worker model, the tool results, the
structured judgment returned by the evaluator model).  The `add_messages`
reducer on the `messages` channel merges a node update by appending the
fresh messages it contains; the remaining channels are last-value channels
overwritten by each update that mentions them.
-/

namespace Sidekick

/-- Conversation-entry roles.  LangChain represents these as the classes
`SystemMessage`, `HumanMessage`, `AIMessage` and `ToolMessage`; the embedding
uses a role tag on a single message structure. -/
inductive Role where
  | system
  | user
  | assistant
  | tool
deriving DecidableEq, Repr, Inhabited

/-- A model-issued tool invocation request (name plus serialized arguments). -/
structure ToolCall where
  name : String
  args : String
deriving DecidableEq, Repr, Inhabited

/-- A conversation entry.  `tool_calls = none` models a message class that has
no `tool_calls` attribute at all (system / user / tool messages); an
`AIMessage` always carries the attribute, as `some` list, possibly empty. -/
structure Message where
  role : Role
  content : String
  tool_calls : Option (List ToolCall)
deriving DecidableEq, Repr, Inhabited

/-- The graph state (`class State(TypedDict)`, src/sidekick.py lines 29-34). -/
structure State where
  messages : List Message
  success_criteria : String
  feedback_on_work : Option String
  success_criteria_met : Bool
  user_input_needed : Bool
deriving DecidableEq, Repr, Inhabited

/-- The strict structured output of the evaluator model call
(`class EvaluatorOutput(BaseModel)`, lines 40-49). -/
structure EvaluatorOutput where
  feedback : String
  success_criteria_met : Bool
  user_input_needed : Bool
deriving DecidableEq, Repr, Inhabited

/-- The fixed default criterion used when the caller supplies none
(line 246). -/
def defaultCriteria : String := "The answer should be clear and accurate"

/-- The clause appended to the worker system message when
`feedback_on_work` is truthy (lines 105-112). -/
def rejected_clause (feedback : String) : String :=
  "\n\nPrevious attempt was rejected for the following reason:\n" ++ feedback
    ++ "\n\nPlease correct the issue and continue.\n"

/-- The base worker system message (the `.strip()`-ed f-string of lines
87-103); `now` stands for the interpolated current date and time. -/
def worker_base_message (now criteria : String) : String :=
  ("\nYou are a helpful assistant that can use tools to complete tasks.\nYou should continue working until either:\n- The success criteria is met, OR\n- You need clarification from the user.\n\nRules:\n- Use tools when needed.\n- If using Python, include print() to return output.\n- If finished, provide a final answer.\n- If clarification is needed, clearly ask a question.\n\nCurrent date and time: "
    ++ now ++ "\n\nSuccess criteria:\n" ++ criteria ++ "\n").trim

/-- The full worker system message: the base message, plus the rejected
clause when `feedback_on_work` is truthy (Python: `None` and the empty
string are both falsy; lines 87-112). -/
def worker_system_message (now criteria : String) (feedback : Option String) :
    String :=
  match feedback with
  | some f =>
      if f = "" then worker_base_message now criteria
      else worker_base_message now criteria ++ rejected_clause f
  | none => worker_base_message now criteria

/-- The in-place rewrite loop of lines 117-121: every `SystemMessage` in the
state has its `content` field overwritten with the current instruction text.
This mutation acts on the very objects held by the graph state, so it
persists into the post-step state. -/
def workerRewrite (now : String) (s : State) : List Message :=
  s.messages.map fun m =>
    if m.role = .system then
      { m with content := worker_system_message now s.success_criteria s.feedback_on_work }
    else m

/-- The message list the worker passes to the model (lines 114-126): the
(rewritten) state messages, with one fresh `SystemMessage` prepended when the
state holds none.  Note that when no system entry is found the rewrite loop
is the identity, so using `workerRewrite` in both branches is faithful. -/
def workerPrompt (now : String) (s : State) : List Message :=
  if s.messages.any (fun m => m.role == .system) then workerRewrite now s
  else
    { role := .system,
      content := worker_system_message now s.success_criteria s.feedback_on_work,
      tool_calls := none } :: workerRewrite now s

/-- The state after the worker node (lines 86-128): the node returns the
update `\x7b"messages": [response]\x7d`, and `add_messages` appends the fresh
`response` to the (possibly rewritten-in-place) state messages.  The
`SystemMessage` prepended on the no-system path exists only in the local
prompt list and is not part of the returned update, so it never reaches the
state.  All other channels are untouched by the update. -/
def worker (now : String) (s : State) (response : Message) : State :=
  { s with messages := workerRewrite now s ++ [response] }

/-- The conditional edge after the worker (lines 133-137).  `none` models the
`IndexError` Python raises on an empty message list.  The Python test is
`hasattr(last_message, "tool_calls") and last_message.tool_calls`: absent
attribute and empty list are both falsy. -/
inductive WorkerRoute where
  | tools
  | evaluator
deriving DecidableEq, Repr

def worker_router (s : State) : Option WorkerRoute :=
  match s.messages.getLast? with
  | none => none
  | some last =>
      match last.tool_calls with
      | some (_ :: _) => some .tools
      | _ => some .evaluator

/-- One line of the transcript built by `format_conversation` (lines
142-149): `HumanMessage` and `AIMessage` entries render a line each (an
`AIMessage` with falsy content renders the placeholder), every other entry
contributes nothing. -/
def lineFor (m : Message) : String :=
  match m.role with
  | .user => "User: " ++ m.content ++ "\n"
  | .assistant =>
      "Assistant: " ++ (if m.content = "" then "[tool use]" else m.content) ++ "\n"
  | _ => ""

/-- `format_conversation` (lines 142-149): the `text += ...` loop followed by
`.strip()`. -/
def format_conversation (messages : List Message) : String :=
  (messages.foldl (fun text m => text ++ lineFor m) "").trim

/-- The state after the evaluator node (lines 154-202).  The structured model
call is the oracle argument `j`; the node returns one fresh `AIMessage` for
`add_messages` to append, and overwrites the three judgment channels. -/
def evaluator (s : State) (j : EvaluatorOutput) : State :=
  { s with
    messages := s.messages ++
      [{ role := .assistant,
         content := "Evaluator feedback: " ++ j.feedback,
         tool_calls := some [] }],
    feedback_on_work := some j.feedback,
    success_criteria_met := j.success_criteria_met,
    user_input_needed := j.user_input_needed }

/-- The conditional edge after the evaluator (lines 207-210). -/
inductive EvalRoute where
  | worker
  | exit
deriving DecidableEq, Repr

def route_based_on_evaluation (s : State) : EvalRoute :=
  if s.success_criteria_met || s.user_input_needed then .exit else .worker

/-- The `ToolNode` (line 219): executes the tool calls of the last message
and appends one `ToolMessage` per invocation.  The executed results are the
oracle argument. -/
def tools_node (s : State) (results : List Message) : State :=
  { s with messages := s.messages ++ results }

/-- The input state built by `run_superstep` (lines 243-250). The
`success_criteria or "The answer should be clear and accurate"` default
fires on a missing criterion and on the empty string (both falsy). -/
def seedState (message : String) (success_criteria : Option String) : State :=
  { messages := [{ role := .user, content := message, tool_calls := none }],
    success_criteria :=
      match success_criteria with
      | some c => if c = "" then defaultCriteria else c
      | none => defaultCriteria,
    feedback_on_work := none,
    success_criteria_met := false,
    user_input_needed := false }

/-- How `graph.ainvoke` merges the input state into the checkpointed state of
the thread: `messages` goes through the `add_messages` reducer (append of the
fresh input messages), every other channel is a last-value channel set to the
input value. -/
def mergeInput (prior input : State) : State :=
  { messages := prior.messages ++ input.messages,
    success_criteria := input.success_criteria,
    feedback_on_work := input.feedback_on_work,
    success_criteria_met := input.success_criteria_met,
    user_input_needed := input.user_input_needed }

/-- An external transcript entry, the `\x7b"role": ..., "content": ...\x7d`
dictionaries of lines 254-256. -/
structure ChatEntry where
  role : String
  content : String
deriving DecidableEq, Repr, Inhabited

/-- `run_superstep` (lines 240-258) with the compiled graph abstracted as the
oracle `ainvoke`: seed the input state, drive the graph, and extend the prior
external transcript with the user message and the contents of the last
two messages of the final state.  `none` models the `IndexError` negative indexing
raises when the final state holds fewer than two messages. -/
def run_superstep (ainvoke : State → State) (message : String)
    (success_criteria : Option String) (history : List ChatEntry) :
    Option (List ChatEntry) :=
  let result := ainvoke (seedState message success_criteria)
  let n := result.messages.length
  if 2 ≤ n then
    some (history ++
      [{ role := "user", content := message },
       { role := "assistant", content := (result.messages.getD (n - 2) default).content },
       { role := "assistant", content := (result.messages.getD (n - 1) default).content }])
  else none

/-- Number of system-role entries in a message list. -/
def countSystem (l : List Message) : Nat :=
  l.countP fun m => m.role == .system

/-- Outcome of driving the compiled graph: the final state at `EXIT`, a
propagated exception, or fuel exhaustion (the base design has no iteration
cap, so the loop need not terminate). -/
inductive DriveResult where
  | ok (s : State)
  | fail (e : String)
  | timeout
deriving DecidableEq, Repr

/-- Executable drive of the state machine built by `build_graph` (lines
215-235): `START → worker`, conditional edge to `tools` or `evaluator`,
`tools → worker`, conditional edge back to `worker` or `END`.  The worker
model, the tool executor and the structured evaluator model are oracles; the
evaluator oracle returns `Except` because its structured-output call can fail
to parse, and no node traps that exception. -/
def drive (fuel : Nat) (now : String) (workerModel : List Message → Message)
    (toolExec : Message → List Message)
    (evalModel : State → Except String EvaluatorOutput) (s : State) :
    DriveResult :=
  match fuel with
  | 0 => .timeout
  | fuel + 1 =>
    let response := workerModel (workerPrompt now s)
    let s1 := worker now s response
    match worker_router s1 with
    | none => .fail "IndexError"
    | some .tools =>
        drive fuel now workerModel toolExec evalModel
          (tools_node s1 (toolExec response))
    | some .evaluator =>
        match evalModel s1 with
        | .error e => .fail e
        | .ok j =>
            let s2 := evaluator s1 j
            match route_based_on_evaluation s2 with
            | .exit => .ok s2
            | .worker => drive fuel now workerModel toolExec evalModel s2

/-- Outcome of one whole `run_superstep` call when the graph drive is made
explicit: the extended transcript, a propagated exception (no transcript at
all), or fuel exhaustion. -/
inductive SuperstepResult where
  | ok (transcript : List ChatEntry)
  | fail (e : String)
  | timeout
deriving DecidableEq, Repr

/-- `run_superstep` (lines 240-258) with the graph drive made explicit: on an
exception inside the drive no transcript is produced and the exception
surfaces to the caller unchanged. -/
def run_superstep_driven (fuel : Nat) (now : String)
    (workerModel : List Message → Message) (toolExec : Message → List Message)
    (evalModel : State → Except String EvaluatorOutput) (message : String)
    (success_criteria : Option String) (history : List ChatEntry) :
    SuperstepResult :=
  match drive fuel now workerModel toolExec evalModel
      (seedState message success_criteria) with
  | .fail e => .fail e
  | .timeout => .timeout
  | .ok result =>
    let n := result.messages.length
    if 2 ≤ n then
      .ok (history ++
        [{ role := "user", content := message },
         { role := "assistant", content := (result.messages.getD (n - 2) default).content },
         { role := "assistant", content := (result.messages.getD (n - 1) default).content }])
    else .fail "IndexError"

/-- One observable transition of the session state: a worker step (the model
response is an `AIMessage`), a tool-dispatch step (the results are
`ToolMessage` entries), an evaluator step, or the merge of a fresh superstep
input into the checkpointed thread state. -/
inductive Step : State → State → Prop where
  | worker (now : String) (s : State) (response : Message)
      (h : response.role = .assistant) :
      Step s (Sidekick.worker now s response)
  | tools (s : State) (results : List Message)
      (h : ∀ m ∈ results, m.role = .tool) :
      Step s (tools_node s results)
  | evaluator (s : State) (j : EvaluatorOutput) :
      Step s (Sidekick.evaluator s j)
  | input (s : State) (message : String) (criteria : Option String) :
      Step s (mergeInput s (seedState message criteria))

/-- Any finite sequence of transitions within a session. -/
def Steps : State → State → Prop := Relation.ReflTransGen Step

/-! ## Helper lemmas -/

theorem lineFor_of_system_or_tool (m : Message)
    (h : m.role = .system ∨ m.role = .tool) : lineFor m = "" := by
  rcases h with h | h <;> simp [lineFor, h]

theorem foldl_lineFor_acc (msgs : List Message) (acc : String) :
    msgs.foldl (fun text m => text ++ lineFor m) acc =
      acc ++ msgs.foldl (fun text m => text ++ lineFor m) "" := by
  induction msgs generalizing acc with
  | nil => simp
  | cons m rest ih =>
      simp only [List.foldl_cons]
      rw [ih (acc ++ lineFor m), ih ("" ++ lineFor m)]
      rw [show ("" ++ lineFor m) = lineFor m from rfl, String.append_assoc]

theorem foldl_lineFor_filter (msgs : List Message) :
    msgs.foldl (fun text m => text ++ lineFor m) "" =
      (msgs.filter fun m => m.role == .user || m.role == .assistant).foldl
        (fun text m => text ++ lineFor m) "" := by
  induction msgs with
  | nil => rfl
  | cons m rest ih =>
      simp only [List.foldl_cons, List.filter_cons]
      by_cases h : (m.role == .user || m.role == .assistant) = true
      · rw [if_pos h]
        simp only [List.foldl_cons]
        rw [foldl_lineFor_acc rest, foldl_lineFor_acc
          (rest.filter fun m => m.role == .user || m.role == .assistant), ih]
      · rw [if_neg h]
        have hline : lineFor m = "" := by
          apply lineFor_of_system_or_tool
          cases hr : m.role <;> simp [hr] at h ⊢
        rw [show ("" ++ lineFor m) = lineFor m from rfl, hline]
        exact ih

theorem workerRewrite_of_no_system (now : String) (s : State)
    (h : ∀ m ∈ s.messages, m.role ≠ .system) :
    workerRewrite now s = s.messages := by
  unfold workerRewrite
  have key : ∀ l : List Message, (∀ m ∈ l, m.role ≠ .system) →
      l.map (fun m => if m.role = .system then
        { m with content := worker_system_message now s.success_criteria s.feedback_on_work }
      else m) = l := by
    intro l hl
    induction l with
    | nil => rfl
    | cons m rest ih =>
        simp only [List.map_cons]
        rw [if_neg (hl m (by simp)), ih fun x hx => hl x (by simp [hx])]
  exact key s.messages h

theorem workerRewrite_role_eq (now : String) (s : State) (m : Message) :
    ((if m.role = .system then
        { m with content := worker_system_message now s.success_criteria s.feedback_on_work }
      else m) : Message).role = m.role := by
  split <;> rfl

theorem countSystem_append (l₁ l₂ : List Message) :
    countSystem (l₁ ++ l₂) = countSystem l₁ + countSystem l₂ :=
  List.countP_append _ _ _

theorem countSystem_workerRewrite (now : String) (s : State) :
    countSystem (workerRewrite now s) = countSystem s.messages := by
  unfold countSystem workerRewrite
  rw [List.countP_map]
  exact List.countP_congr fun m _ => by
    simp only [Function.comp_apply, workerRewrite_role_eq]

theorem countSystem_singleton_nonsystem (m : Message) (h : m.role ≠ .system) :
    countSystem [m] = 0 := by
  unfold countSystem
  rw [List.countP_eq_zero]
  intro a ha
  simp only [List.mem_singleton] at ha
  subst ha
  simpa using h

theorem countSystem_step (a b : State) (h : Step a b)
    (h0 : countSystem a.messages = 0) : countSystem b.messages = 0 := by
  cases h with
  | worker now s response hr =>
      show countSystem (workerRewrite now a ++ [response]) = 0
      rw [countSystem_append, countSystem_workerRewrite, h0,
        countSystem_singleton_nonsystem response (by simp [hr])]
  | tools s results hr =>
      show countSystem (a.messages ++ results) = 0
      rw [countSystem_append, h0]
      simp only [Nat.zero_add]
      rw [countSystem, List.countP_eq_zero]
      intro m hm
      simp [hr m hm]
  | evaluator s j =>
      show countSystem (a.messages ++ [_]) = 0
      rw [countSystem_append, h0, countSystem_singleton_nonsystem _ (by simp)]
  | input s message criteria =>
      show countSystem (a.messages ++ (seedState message criteria).messages) = 0
      rw [countSystem_append, h0]
      simp [seedState, countSystem]

theorem workerRewrite_getElem?_nonsystem (now : String) (s : State) (i : Nat)
    (m : Message) (hm : s.messages[i]? = some m) (hrole : m.role ≠ .system) :
    (workerRewrite now s)[i]? = some m := by
  unfold workerRewrite
  rw [List.getElem?_map, hm]
  simp only [Option.map_some']
  rw [if_neg hrole]

theorem getElem?_lt_length {l : List Message} {i : Nat} {m : Message}
    (h : l[i]? = some m) : i < l.length := by
  rw [List.getElem?_eq_some] at h
  exact h.1

theorem Step.length_le {a b : State} (h : Step a b) :
    a.messages.length ≤ b.messages.length := by
  cases h with
  | worker now s response hr =>
      show a.messages.length ≤ (workerRewrite now a ++ [response]).length
      simp [workerRewrite]
  | tools s results hr =>
      show a.messages.length ≤ (a.messages ++ results).length
      simp
  | evaluator s j =>
      show a.messages.length ≤ (a.messages ++ _).length
      simp
  | input s message criteria =>
      show a.messages.length ≤ (a.messages ++ _).length
      simp

theorem Step.preserves_nonsystem {a b : State} (h : Step a b) (i : Nat)
    (m : Message) (hm : a.messages[i]? = some m) (hrole : m.role ≠ .system) :
    b.messages[i]? = some m := by
  have hlt : i < a.messages.length := getElem?_lt_length hm
  cases h with
  | worker now s response hr =>
      show (workerRewrite now a ++ [response])[i]? = some m
      rw [List.getElem?_append_left (by simpa [workerRewrite] using hlt)]
      exact workerRewrite_getElem?_nonsystem now a i m hm hrole
  | tools s results hr =>
      show (a.messages ++ results)[i]? = some m
      rw [List.getElem?_append_left hlt]
      exact hm
  | evaluator s j =>
      show (a.messages ++ _)[i]? = some m
      rw [List.getElem?_append_left hlt]
      exact hm
  | input s message criteria =>
      show (a.messages ++ _)[i]? = some m
      rw [List.getElem?_append_left hlt]
      exact hm

/-! ## Claim theorems -/

/-- C1, counterexample: the claim says the state observed after any worker
step has exactly one system entry.  On a freshly seeded session (one user
message, as `run_superstep` builds it), one worker step yields a state with
zero system entries: the worker prepends the `SystemMessage` only to the
local prompt list, and the returned update `\x7b"messages": [response]\x7d`
does not contain it. -/
theorem C1_counterexample :
    countSystem (worker "2025-01-01 00:00:00" (seedState "hello" (some "Say hello"))
      { role := .assistant, content := "hi there", tool_calls := some [] }).messages = 0 ∧
    countSystem (worker "2025-01-01 00:00:00" (seedState "hello" (some "Say hello"))
      { role := .assistant, content := "hi there", tool_calls := some [] }).messages ≠ 1 := by
  constructor <;> decide

/-- C1, amended: on every state reachable by worker, tool, evaluator and
superstep-input transitions from a state with no system entry (as every
session start is), the persisted `messages` contain exactly zero system
entries — in particular after every worker step — while the prompt the
worker passes to the model contains exactly one system entry, prepended
because the state never holds one; the rewrite-in-place branch never runs. -/
theorem C1_worker_state_zero_system_prompt_one (s₀ s : State) (h : Steps s₀ s)
    (h0 : countSystem s₀.messages = 0) :
    countSystem s.messages = 0 ∧
    ∀ now, countSystem (workerPrompt now s) = 1 := by
  have hstate : countSystem s.messages = 0 := by
    induction h with
    | refl => exact h0
    | tail _ hstep ih => exact countSystem_step _ _ hstep ih
  refine ⟨hstate, fun now => ?_⟩
  have hany : s.messages.any (fun m => m.role == .system) = false := by
    rw [List.any_eq_false]
    intro m hm
    have := (List.countP_eq_zero.mp hstate) m hm
    simpa using this
  unfold workerPrompt
  rw [if_neg (by simp [hany])]
  rw [show ∀ (x : Message) (l : List Message), x :: l = [x] ++ l from fun x l => rfl,
    countSystem_append, countSystem_workerRewrite, hstate]
  rfl

/-- C1 witness: one worker step from a freshly seeded session. -/
theorem C1_worker_state_zero_system_prompt_one_witness :
    countSystem (worker "T" (seedState "hello" (some "c"))
      { role := .assistant, content := "ok", tool_calls := some [] }).messages = 0 ∧
    countSystem (workerPrompt "T" (worker "T" (seedState "hello" (some "c"))
      { role := .assistant, content := "ok", tool_calls := some [] })) = 1 := by
  have h := C1_worker_state_zero_system_prompt_one (seedState "hello" (some "c")) _
    (Relation.ReflTransGen.single
      (Step.worker "T" (seedState "hello" (some "c"))
        { role := .assistant, content := "ok", tool_calls := some [] } rfl))
    (by decide)
  exact ⟨h.1, h.2 "T"⟩

/-- C2: the post-evaluator routing function returns the exit route exactly
when `success_criteria_met` or `user_input_needed` holds in the state, and
routes back to the worker exactly when both are false; composed with the
evaluator step, termination is decided exactly by the two booleans of the
most recent judgment. -/
theorem C2_route_based_on_evaluation_correct (s : State) (j : EvaluatorOutput) :
    (route_based_on_evaluation s = .exit ↔
      (s.success_criteria_met = true ∨ s.user_input_needed = true)) ∧
    (route_based_on_evaluation s = .worker ↔
      (s.success_criteria_met = false ∧ s.user_input_needed = false)) ∧
    (route_based_on_evaluation (evaluator s j) = .exit ↔
      (j.success_criteria_met = true ∨ j.user_input_needed = true)) ∧
    (route_based_on_evaluation (evaluator s j) = .worker ↔
      (j.success_criteria_met = false ∧ j.user_input_needed = false)) := by
  refine ⟨?_, ?_, ?_, ?_⟩
  · cases hm : s.success_criteria_met <;> cases hu : s.user_input_needed <;>
      simp [route_based_on_evaluation, hm, hu]
  · cases hm : s.success_criteria_met <;> cases hu : s.user_input_needed <;>
      simp [route_based_on_evaluation, hm, hu]
  · cases hm : j.success_criteria_met <;> cases hu : j.user_input_needed <;>
      simp [route_based_on_evaluation, evaluator, hm, hu]
  · cases hm : j.success_criteria_met <;> cases hu : j.user_input_needed <;>
      simp [route_based_on_evaluation, evaluator, hm, hu]

/-- C3: the post-worker router is a pure predicate over the last message
only: a last entry with a nonempty tool-call list routes to the tool node, a
last entry with no tool-call attribute or an empty list routes to the
evaluator, and any two states sharing the same last entry route alike. -/
theorem C3_worker_router_pure_last_entry (s : State) (last : Message)
    (h : s.messages.getLast? = some last) :
    (∀ tc, last.tool_calls = some tc → tc ≠ [] → worker_router s = some .tools) ∧
    ((last.tool_calls = none ∨ last.tool_calls = some []) →
      worker_router s = some .evaluator) ∧
    (∀ s2 : State, s2.messages.getLast? = some last →
      worker_router s2 = worker_router s) := by
  refine ⟨?_, ?_, ?_⟩
  · intro tc htc hne
    cases tc with
    | nil => exact absurd rfl hne
    | cons hd tl => simp [worker_router, h, htc]
  · rintro (htc | htc) <;> simp [worker_router, h, htc]
  · intro s2 h2
    simp [worker_router, h, h2]

/-- C3 witness: a last entry with one tool call routes to the tool node, a
last entry with an empty tool-call list routes to the evaluator. -/
theorem C3_worker_router_pure_last_entry_witness :
    worker_router ⟨[⟨.assistant, "", some [⟨"search", "q"⟩]⟩], "c", none, false, false⟩ = some .tools ∧
    worker_router ⟨[⟨.assistant, "done", some []⟩], "c", none, false, false⟩ = some .evaluator := by
  constructor
  · exact (C3_worker_router_pure_last_entry
      ⟨[⟨.assistant, "", some [⟨"search", "q"⟩]⟩], "c", none, false, false⟩
      ⟨.assistant, "", some [⟨"search", "q"⟩]⟩ (by decide)).1
      [⟨"search", "q"⟩] rfl (by decide)
  · exact (C3_worker_router_pure_last_entry
      ⟨[⟨.assistant, "done", some []⟩], "c", none, false, false⟩
      ⟨.assistant, "done", some []⟩ (by decide)).2.1 (Or.inr rfl)

/-- C4: across any sequence of worker, tool-dispatch, evaluator and
superstep-input transitions, the length of `messages` never decreases, and
every existing non-system entry is still at its index, unchanged. -/
theorem C4_append_only (s s2 : State) (h : Steps s s2) :
    s.messages.length ≤ s2.messages.length ∧
    ∀ (i : Nat) (m : Message), s.messages[i]? = some m → m.role ≠ .system →
      s2.messages[i]? = some m := by
  induction h with
  | refl =>
      refine ⟨le_rfl, ?_⟩
      intro i m hm _
      exact hm
  | tail _ hstep ih =>
      obtain ⟨ih1, ih2⟩ := ih
      refine ⟨ih1.trans hstep.length_le, ?_⟩
      intro i m hm hrole
      exact hstep.preserves_nonsystem i m (ih2 i m hm hrole) hrole

/-- C4 witness: a worker step followed by an evaluator step from a freshly
seeded session; the seeded user entry is preserved verbatim at index 0. -/
theorem C4_append_only_witness :
    (seedState "q" (some "c")).messages.length ≤
      (evaluator (worker "T" (seedState "q" (some "c"))
        ⟨.assistant, "a", some []⟩) ⟨"fb", false, true⟩).messages.length ∧
    (evaluator (worker "T" (seedState "q" (some "c"))
        ⟨.assistant, "a", some []⟩) ⟨"fb", false, true⟩).messages[0]? =
      some ⟨.user, "q", none⟩ := by
  have h := C4_append_only (seedState "q" (some "c")) _
    (Relation.ReflTransGen.tail
      (Relation.ReflTransGen.single
        (Step.worker "T" (seedState "q" (some "c")) ⟨.assistant, "a", some []⟩ rfl))
      (Step.evaluator _ ⟨"fb", false, true⟩))
  exact ⟨h.1, h.2 0 ⟨.user, "q", none⟩ (by decide) (by decide)⟩

/-- C6: the evaluator step appends exactly one assistant entry, whose content
is the string "Evaluator feedback: " followed by the judgment feedback, and
copies the three judgment fields into the state; the criterion is untouched. -/
theorem C6_evaluator_update (s : State) (j : EvaluatorOutput) :
    (evaluator s j).messages = s.messages ++
      [⟨.assistant, "Evaluator feedback: " ++ j.feedback, some []⟩] ∧
    (evaluator s j).messages.length = s.messages.length + 1 ∧
    (evaluator s j).feedback_on_work = some j.feedback ∧
    (evaluator s j).success_criteria_met = j.success_criteria_met ∧
    (evaluator s j).user_input_needed = j.user_input_needed ∧
    (evaluator s j).success_criteria = s.success_criteria :=
  ⟨rfl, by simp [evaluator], rfl, rfl, rfl, rfl⟩

/-- C5: whenever the graph drive returns a final state with at least two
messages (negative indexing raises otherwise), `run_superstep` returns the
prior transcript extended with exactly three new entries, in order: the new
user message, the content of the second-to-last message of the final state,
and the content of the last message of the final state. -/
theorem C5_run_superstep_extends_by_three (ainvoke : State → State)
    (message : String) (criteria : Option String) (history : List ChatEntry)
    (h : 2 ≤ (ainvoke (seedState message criteria)).messages.length) :
    ∃ out, run_superstep ainvoke message criteria history = some out ∧
      out = history ++
        [⟨"user", message⟩,
         ⟨"assistant", ((ainvoke (seedState message criteria)).messages.getD
            ((ainvoke (seedState message criteria)).messages.length - 2) default).content⟩,
         ⟨"assistant", ((ainvoke (seedState message criteria)).messages.getD
            ((ainvoke (seedState message criteria)).messages.length - 1) default).content⟩] ∧
      out.length = history.length + 3 ∧
      out.take history.length = history := by
  refine ⟨_, ?_, rfl, ?_, ?_⟩
  · unfold run_superstep
    rw [if_pos h]
  · simp
  · exact List.take_left history _

/-- C5 witness: a drive whose final state holds three messages. -/
theorem C5_run_superstep_extends_by_three_witness :
    run_superstep
      (fun _ => ⟨[⟨.user, "q", none⟩, ⟨.assistant, "ans", some []⟩,
        ⟨.assistant, "Evaluator feedback: ok", some []⟩], "c", none, true, false⟩)
      "q" (some "c") [⟨"user", "old"⟩] =
    some [⟨"user", "old"⟩, ⟨"user", "q"⟩, ⟨"assistant", "ans"⟩,
      ⟨"assistant", "Evaluator feedback: ok"⟩] := by
  obtain ⟨out, h1, h2, h3, h4⟩ := C5_run_superstep_extends_by_three
    (fun _ => ⟨[⟨.user, "q", none⟩, ⟨.assistant, "ans", some []⟩,
      ⟨.assistant, "Evaluator feedback: ok", some []⟩], "c", none, true, false⟩)
    "q" (some "c") [⟨"user", "old"⟩] (by decide)
  rw [h1, h2]
  rfl

/-- C7: the transcript-formatting function of the evaluator step keeps only
user-role and assistant-role entries (every tool-result and system entry
contributes nothing, so filtering them away leaves the output unchanged),
and an assistant entry with no text renders as the placeholder line
containing "[tool use]" instead of its content. -/
theorem C7_format_conversation_turns (msgs : List Message) :
    format_conversation msgs =
      format_conversation
        (msgs.filter fun m => m.role == .user || m.role == .assistant) ∧
    (∀ m : Message, m.role = .assistant → m.content = "" →
      lineFor m = "Assistant: " ++ "[tool use]" ++ "\n") ∧
    (∀ m : Message, m.role = .tool → lineFor m = "") := by
  refine ⟨?_, ?_, ?_⟩
  · unfold format_conversation
    rw [foldl_lineFor_filter]
  · intro m h1 h2
    simp [lineFor, h1, h2]
  · intro m h
    simp [lineFor, h]

/-- C7 witness: a four-entry conversation with a tool-result entry and a
text-free assistant entry. -/
theorem C7_format_conversation_turns_witness :
    format_conversation
      [⟨.user, "q", none⟩, ⟨.assistant, "", some [⟨"t", "a"⟩]⟩,
       ⟨.tool, "result", none⟩, ⟨.assistant, "ans", some []⟩] =
      format_conversation
        [⟨.user, "q", none⟩, ⟨.assistant, "", some [⟨"t", "a"⟩]⟩,
         ⟨.assistant, "ans", some []⟩] ∧
    lineFor ⟨.assistant, "", some [⟨"t", "a"⟩]⟩ = "Assistant: " ++ "[tool use]" ++ "\n" := by
  have h := C7_format_conversation_turns
    [⟨.user, "q", none⟩, ⟨.assistant, "", some [⟨"t", "a"⟩]⟩,
     ⟨.tool, "result", none⟩, ⟨.assistant, "ans", some []⟩]
  exact ⟨h.1, h.2.1 ⟨.assistant, "", some [⟨"t", "a"⟩]⟩ rfl rfl⟩

/-- C8: the worker step leaves `success_criteria`, `feedback_on_work`,
`success_criteria_met` and `user_input_needed` unchanged; when the state
holds no system entry (as is always the case, see C1) its messages update is
exactly the append of the model response. -/
theorem C8_worker_touches_only_messages (now : String) (s : State)
    (response : Message) :
    (worker now s response).success_criteria = s.success_criteria ∧
    (worker now s response).feedback_on_work = s.feedback_on_work ∧
    (worker now s response).success_criteria_met = s.success_criteria_met ∧
    (worker now s response).user_input_needed = s.user_input_needed ∧
    ((∀ m ∈ s.messages, m.role ≠ .system) →
      (worker now s response).messages = s.messages ++ [response]) := by
  refine ⟨rfl, rfl, rfl, rfl, fun h => ?_⟩
  show workerRewrite now s ++ [response] = s.messages ++ [response]
  rw [workerRewrite_of_no_system now s h]

/-- C8 witness: a worker step on a freshly seeded session. -/
theorem C8_worker_touches_only_messages_witness :
    (worker "T" (seedState "q" (some "c")) ⟨.assistant, "ans", some []⟩).feedback_on_work
      = (seedState "q" (some "c")).feedback_on_work ∧
    (worker "T" (seedState "q" (some "c")) ⟨.assistant, "ans", some []⟩).messages
      = (seedState "q" (some "c")).messages ++ [⟨.assistant, "ans", some []⟩] := by
  have h := C8_worker_touches_only_messages "T" (seedState "q" (some "c"))
    ⟨.assistant, "ans", some []⟩
  exact ⟨h.2.1, h.2.2.2.2 (by decide)⟩

/-- C9: if the evaluator structured-output call fails to parse, the whole
superstep fails with that very error: `run_superstep` yields no transcript,
and no defaulted judgment or success-claiming state is produced.  The
hypothesis says the worker model answers without tool calls, so the router
sends control to the evaluator. -/
theorem C9_structured_output_error_propagates (fuel : Nat) (now : String)
    (workerModel : List Message → Message) (toolExec : Message → List Message)
    (e message : String) (criteria : Option String) (history : List ChatEntry)
    (hw : ∀ prompt, (workerModel prompt).tool_calls = some []) :
    run_superstep_driven (fuel + 1) now workerModel toolExec
      (fun _ => .error e) message criteria history = .fail e := by
  unfold run_superstep_driven drive
  have hlast : (worker now (seedState message criteria)
      (workerModel (workerPrompt now (seedState message criteria)))).messages.getLast? =
      some (workerModel (workerPrompt now (seedState message criteria))) := by
    show (workerRewrite now (seedState message criteria) ++ [_]).getLast? = _
    rw [List.getLast?_concat]
  simp only [worker_router, hlast, hw]

/-- C9 witness: one concrete superstep whose evaluator call fails. -/
theorem C9_structured_output_error_propagates_witness :
    run_superstep_driven 1 "T" (fun _ => ⟨.assistant, "ans", some []⟩)
      (fun _ => []) (fun _ => .error "parse failure") "q" none [] =
    .fail "parse failure" :=
  C9_structured_output_error_propagates 0 "T" (fun _ => ⟨.assistant, "ans", some []⟩)
    (fun _ => []) "parse failure" "q" none [] (fun _ => rfl)

/-- C10: every superstep input seeds `feedback_on_work = none`,
`success_criteria_met = false` and `user_input_needed = false`, and the
last-value channels of the checkpointed thread are overwritten with these
values whatever an earlier superstep left there; hence the first worker step
of the superstep builds exactly the base system instruction, with no
previous-attempt-rejected clause appended. -/
theorem C10_fresh_seed_no_rejected_clause (prior : State) (message now : String)
    (criteria : Option String) :
    (seedState message criteria).feedback_on_work = none ∧
    (mergeInput prior (seedState message criteria)).feedback_on_work = none ∧
    (mergeInput prior (seedState message criteria)).success_criteria_met = false ∧
    (mergeInput prior (seedState message criteria)).user_input_needed = false ∧
    worker_system_message now
        (mergeInput prior (seedState message criteria)).success_criteria
        (mergeInput prior (seedState message criteria)).feedback_on_work =
      worker_base_message now
        (mergeInput prior (seedState message criteria)).success_criteria :=
  ⟨rfl, rfl, rfl, rfl, rfl⟩


end Sidekick
